import Mathlib

/-!
Shallow embedding of `pylons/commands.py` (the `controller` and `shell`
paster commands) and proofs about it.

External collaborators (paste.script, paste.deploy, paste.fixture, IPython,
the Python import machinery) are modelled as parameters of the commands:
an environment record supplies the outcome of each external call, and the
commands are pure functions from that environment to the sequence of
observable effects and the final result.
-/

namespace Pylons

/-- Outcome of a Python `__import__(name)` attempt: it may succeed, raise
`ImportError`, or raise some other exception (carrying its message). -/
inductive ImportResult where
  | success
  | importError
  | otherError (msg : String)
deriving DecidableEq

/-- A Python exception as observed by the command layer: either a
`paste.script.command.BadCommand` (usage error) or any other exception,
each carrying its message (its `str`). -/
inductive PyExc where
  | badCommand (msg : String)
  | other (msg : String)
deriving DecidableEq

/-- Python `str(exc)`: both exception kinds carry just their message. -/
def pyexc_str : PyExc → String
  | PyExc.badCommand m => m
  | PyExc.other m => m

/-- Python `s.replace(a, b)` for single-character pattern and replacement
(the only uses in `commands.py`: `name.replace('-', '_')` and
`fullname.replace(os.sep, '_')` with `os.sep = '/'`). -/
def py_replace_char (a b : Char) (s : String) : String :=
  String.mk (s.data.map (fun c => if c = a then b else c))

/-- Python `s[1:]`: drop the first character. -/
def py_drop1 (s : String) : String :=
  String.mk (s.data.drop 1)

/-- Python `s.startswith(os.sep)` with `os.sep = '/'`. -/
def starts_with_sep (s : String) : Bool :=
  match s.data with
  | [] => false
  | c :: _ => c = '/'

/-- Python `s.endswith(os.sep)` with `os.sep = '/'`. -/
def ends_with_sep (s : String) : Bool :=
  match s.data.getLast? with
  | some c => c = '/'
  | none => false

/-- `os.path.join(a, b)` for POSIX paths, two arguments. -/
def ospath_join (a b : String) : String :=
  if starts_with_sep b then b
  else if a = "" then b
  else if ends_with_sep a then a ++ b
  else a ++ "/" ++ b

/-- The routing-alias suggestion embedded at the end of the collision
message: `map.connect('<name>', controller='my_<name>')`. -/
def routing_snippet (name : String) : String :=
  "map.connect('" ++ name ++ "', controller='my_" ++ name ++ "')"

/-- The collision message raised by `validate_name` when `__import__(name)`
succeeds (`commands.py` lines 28-37), with the four `%s` slots filled by
the name; the final two slots form the routing snippet. -/
def collision_msg (name : String) : String :=
  "\n\nA module named '" ++ name ++
    "' is already present in your PYTHON_PATH.\n Choosing a conflicting name will likely cause import problems in\n your controller at some point. It's suggested that you choose an alternate\nname, and if you'd like that name to be accessible as '" ++
    name ++
    "', add a route\nto your projects config/routing.py file similar to:\n  " ++
    routing_snippet name

/-- `validate_name` (`commands.py` lines 21-42). `imp` gives the outcome of
`__import__(name)`. An empty (falsy) name raises `BadCommand`; a
successful import raises `BadCommand` with the collision message; an `ImportError` is
the wanted outcome and the function returns `True`; any other import
exception propagates out of the function. -/
def validate_name (imp : String → ImportResult) (name : String) :
    Except PyExc Bool :=
  if name = "" then
    Except.error (PyExc.badCommand ("Please give the name of a controller."))
  else
    match imp name with
    | ImportResult.success => Except.error (PyExc.badCommand (collision_msg name))
    | ImportResult.importError => Except.ok true
    | ImportResult.otherError e => Except.error (PyExc.other e)

/-- Claim C1: `validate_name` raises a usage error (`BadCommand`) exactly when
the candidate name is empty/falsy or its import attempt succeeds, and it
returns `True` for every non-empty name whose import attempt raises
`ImportError`. -/
theorem validate_name_failure_iff (imp : String → ImportResult) (name : String) :
    ((∃ m, validate_name imp name = Except.error (PyExc.badCommand m)) ↔
      (name = "" ∨ imp name = ImportResult.success))
    ∧ (name ≠ "" → imp name = ImportResult.importError →
      validate_name imp name = Except.ok true) := by
  unfold validate_name
  by_cases h : name = "" <;> simp only [h, if_pos, if_neg, reduceIte] <;>
    first
      | exact ⟨fun _ => Or.inl rfl, fun _ => ⟨_, rfl⟩⟩
      | · cases himp : imp name <;> simp_all

/-- Witness for C1 at a concrete import environment and name. -/
theorem validate_name_failure_iff_witness :
    validate_name (fun _ => ImportResult.importError) ("blog") = Except.ok true :=
  (validate_name_failure_iff (fun _ => ImportResult.importError) ("blog")).2
    (by decide) rfl

/-- Claim C7: for every non-empty name whose import attempt succeeds, the
validator fails with a `BadCommand` message that contains the name at least
twice (original and suggested alias) together with the routing-snippet
suggestion `map.connect('<name>', controller='my_<name>')`. -/
theorem validate_name_collision_message (imp : String → ImportResult)
    (name : String) (hne : name ≠ "") (hs : imp name = ImportResult.success) :
    validate_name imp name = Except.error (PyExc.badCommand (collision_msg name))
    ∧ (∃ p s, collision_msg name = p ++ routing_snippet name ++ s)
    ∧ (∃ p q r, collision_msg name = p ++ name ++ q ++ name ++ r) := by
  refine ⟨by simp [validate_name, hne, hs], ⟨?_, ?_⟩⟩
  · refine ⟨"\n\nA module named '" ++ name ++
      "' is already present in your PYTHON_PATH.\n Choosing a conflicting name will likely cause import problems in\n your controller at some point. It's suggested that you choose an alternate\nname, and if you'd like that name to be accessible as '" ++
      name ++
      "', add a route\nto your projects config/routing.py file similar to:\n  ",
      "", ?_⟩
    simp [collision_msg, String.append_assoc]
  · refine ⟨"\n\nA module named '",
      "' is already present in your PYTHON_PATH.\n Choosing a conflicting name will likely cause import problems in\n your controller at some point. It's suggested that you choose an alternate\nname, and if you'd like that name to be accessible as '",
      "', add a route\nto your projects config/routing.py file similar to:\n  " ++
        routing_snippet name, ?_⟩
    simp [collision_msg, String.append_assoc]

/-- Witness for C7 at a concrete import environment and name. -/
theorem validate_name_collision_message_witness :
    validate_name (fun _ => ImportResult.success) ("os") =
      Except.error (PyExc.badCommand (collision_msg ("os"))) :=
  (validate_name_collision_message (fun _ => ImportResult.success) ("os")
    (by decide) rfl).1

/-- Python's `__import__` with the module cache made explicit: a
successful import of a not-yet-loaded module adds it to `sys.modules` (imported modules
stay cached); a failed import leaves the cache unchanged. -/
def py_import (imp : String → ImportResult) (modules : List String)
    (name : String) : ImportResult × List String :=
  match imp name with
  | ImportResult.success =>
    (ImportResult.success, if name ∈ modules then modules else modules ++ [name])
  | r => (r, modules)

/-- `validate_name` (`commands.py` lines 21-42) with the interpreter's
loaded-module set threaded through the speculative `__import__` call. -/
def validate_name_st (imp : String → ImportResult) (modules : List String)
    (name : String) : Except PyExc Bool × List String :=
  if name = "" then
    (Except.error (PyExc.badCommand ("Please give the name of a controller.")),
      modules)
  else
    match py_import imp modules name with
    | (ImportResult.success, m2) =>
      (Except.error (PyExc.badCommand (collision_msg name)), m2)
    | (ImportResult.importError, m2) => (Except.ok true, m2)
    | (ImportResult.otherError e, m2) => (Except.error (PyExc.other e), m2)

/-- The stateful and the stateless readings of `validate_name` agree on the
returned value. -/
theorem validate_name_st_fst (imp : String → ImportResult)
    (modules : List String) (name : String) :
    (validate_name_st imp modules name).1 = validate_name imp name := by
  unfold validate_name_st validate_name py_import
  by_cases h : name = "" <;> cases hi : imp name <;> simp_all

/-- Counterexample to claim C8 as stated: importing a previously unloaded
but importable name during validation leaves the module cached, so the
loaded-module set after the call differs from the set before it. -/
theorem validate_name_retains_module_cex :
    (validate_name_st
      (fun n => if n = ("os") then ImportResult.success
        else ImportResult.importError)
      [] ("os")).2 ≠ [] := by decide

/-- Claim C8 (amended): the speculative import retains no state whenever
the import attempt does not succeed — in particular whenever the validator
returns `True` — and in every case the only possible state change is that
the imported module is now cached in the loaded-module set. -/
theorem validate_name_state_change (imp : String → ImportResult)
    (modules : List String) (name : String) :
    ((validate_name_st imp modules name).2 = modules ∨
      (validate_name_st imp modules name).2 = modules ++ [name])
    ∧ ((validate_name_st imp modules name).1 = Except.ok true →
      (validate_name_st imp modules name).2 = modules)
    ∧ (imp name ≠ ImportResult.success →
      (validate_name_st imp modules name).2 = modules) := by
  unfold validate_name_st py_import
  by_cases h : name = "" <;> cases hi : imp name <;>
    by_cases hm : name ∈ modules <;> simp_all

/-- Witness for the amended C8 at a concrete input. -/
theorem validate_name_state_change_witness :
    (validate_name_st (fun _ => ImportResult.importError) [] ("blog")).2 = [] :=
  (validate_name_state_change (fun _ => ImportResult.importError) []
    ("blog")).2.2 (by decide)

/-- Python `s.split(c)` for a single-character separator, over the
character list: splitting at every occurrence, keeping empty pieces. -/
def split_chars (c : Char) : List Char → List (List Char)
  | [] => [[]]
  | x :: xs =>
    let r := split_chars c xs
    if x = c then [] :: r
    else
      match r with
      | [] => [[x]]
      | y :: ys => (x :: y) :: ys

/-- One `FileOp.copy_file` invocation: render `template` into directory
`dest` with basename `filename`. -/
structure RenderOp where
  template : String
  dest : String
  filename : String
deriving DecidableEq

/-- Environment of `ControllerCommand.command`: the outcomes of the external
calls it makes. `parse` is `FileOp.parse_path_name_args` returning the
`(name, directory)` pair, with `none` meaning the call raised; `imp` is
the import machinery consulted by `validate_name`; `class_name` is
`pylons.util.class_name_from_module_name`; `copy_exc` gives, for a render
operation, the message of the exception `copy_file` raises there (`none`
when the copy succeeds). -/
structure CtrlEnv where
  parse : String → Option (String × String)
  imp : String → ImportResult
  class_name : String → String
  copy_exc : RenderOp → Option String

/-- Observable outcome of the controller command: the `template_vars`
entries set, the successful `copy_file` renders in order, and the final
result. -/
structure CtrlOutcome where
  vars : List (String × String)
  ops : List RenderOp
  result : Except PyExc Unit

/-- The body of `ControllerCommand.command` inside the outer `try`
(`commands.py` lines 82-108): parse the path argument (any parse exception
becomes `BadCommand 'No egg_info directory was found'`), normalize hyphens,
validate the name, derive the class name and the flattened test name, then
render the controller template and, unless `no_test`, the test template. -/
def controller_run (env : CtrlEnv) (arg : String) (no_test : Bool) :
    CtrlOutcome :=
  match env.parse arg with
  | none =>
    ⟨[], [], Except.error (PyExc.badCommand ("No egg_info directory was found"))⟩
  | some (name0, directory) =>
    let name := py_replace_char '-' '_' name0
    match validate_name env.imp name with
    | Except.error e => ⟨[], [], Except.error e⟩
    | Except.ok _ =>
      let fullname := ospath_join directory name
      let controller_name :=
        env.class_name (String.mk ((split_chars '/' name.data).getLastD name.data))
      let fullname2 :=
        if starts_with_sep fullname then fullname else "/" ++ fullname
      let testname := py_drop1 (py_replace_char '/' '_' fullname2)
      let vars := [(("name"), controller_name), (("fname"), ospath_join directory name)]
      let op1 : RenderOp :=
        ⟨"controller.py_tmpl", ospath_join ("controllers") directory, name⟩
      match env.copy_exc op1 with
      | some m => ⟨vars, [], Except.error (PyExc.other m)⟩
      | none =>
        if no_test then ⟨vars, [op1], Except.ok ()⟩
        else
          let op2 : RenderOp :=
            ⟨"test_controller.py_tmpl", ospath_join ("tests") ("functional"),
              "test_" ++ testname⟩
          match env.copy_exc op2 with
          | some m => ⟨vars, [op1], Except.error (PyExc.other m)⟩
          | none => ⟨vars, [op1, op2], Except.ok ()⟩

/-- `ControllerCommand.command` (`commands.py` lines 80-111): the whole
generation sequence runs under a bare `except:` that rewraps any exception
into `BadCommand('An unknown error ocurred, <original message>')`. -/
def controller_command (env : CtrlEnv) (arg : String) (no_test : Bool) :
    CtrlOutcome where
  vars := (controller_run env arg no_test).vars
  ops := (controller_run env arg no_test).ops
  result :=
    match (controller_run env arg no_test).result with
    | Except.ok u => Except.ok u
    | Except.error e =>
      Except.error (PyExc.badCommand ("An unknown error ocurred, " ++ pyexc_str e))

/-- A concrete environment for the `admin/trackback` example: the
scaffolding resolver parses the path into name `trackback` and directory
`admin`, no name collides, and every render succeeds. -/
def adminTrackbackEnv : CtrlEnv where
  parse := fun s =>
    if s = ("admin/trackback") then some (("trackback"), ("admin")) else none
  imp := fun _ => ImportResult.importError
  class_name := fun _ => ("Trackback")
  copy_exc := fun _ => none

/-- Claim C2: invoking the controller command with path `admin/trackback`
(name `trackback`, directory `admin`) renders the controller template into
destination `controllers/admin` with filename `trackback` and, absent
`--no-test`, renders the test template into `tests/functional` with
filename `test_admin_trackback` — the joined path with the leading
separator stripped and every remaining separator replaced by an
underscore. -/
theorem controller_admin_trackback_renders :
    (controller_command adminTrackbackEnv ("admin/trackback") false).ops =
      [⟨"controller.py_tmpl", "controllers/admin", "trackback"⟩,
        ⟨"test_controller.py_tmpl", "tests/functional", "test_admin_trackback"⟩]
    ∧ (controller_command adminTrackbackEnv ("admin/trackback") false).result =
      Except.ok () := by
  exact ⟨rfl, rfl⟩

/-- Claim C5: with `--no-test` set, only the controller template is ever
rendered; the test-template copy step is never executed, whatever the
environment and argument. -/
theorem controller_no_test_frame (env : CtrlEnv) (arg : String) (op : RenderOp)
    (hmem : op ∈ (controller_command env arg true).ops) :
    op.template = "controller.py_tmpl" := by
  have hmem2 : op ∈ (controller_run env arg true).ops := hmem
  unfold controller_run at hmem2
  repeat' split at hmem2 <;> try simp_all

/-- Witness for C5 at the concrete `admin/trackback` environment. -/
theorem controller_no_test_frame_witness :
    (⟨"controller.py_tmpl", "controllers/admin", "trackback"⟩ : RenderOp).template =
      "controller.py_tmpl" :=
  controller_no_test_frame adminTrackbackEnv ("admin/trackback")
    ⟨"controller.py_tmpl", "controllers/admin", "trackback"⟩ (by decide)

/-- Claim C4: every exception escaping the generation sequence — including
the validator's collision `BadCommand` — is caught by the top-level handler
and resurfaced as a `BadCommand` whose message carries the original
exception's message; in the collision case the surfaced message therefore
still contains the remediation (routing-snippet) suggestion. -/
theorem controller_error_rewrap :
    (∀ (env : CtrlEnv) (arg : String) (nt : Bool) (e : PyExc),
      (controller_run env arg nt).result = Except.error e →
      (controller_command env arg nt).result =
        Except.error (PyExc.badCommand ("An unknown error ocurred, " ++ pyexc_str e)))
    ∧ (∀ (env : CtrlEnv) (arg : String) (nt : Bool) (name0 directory : String),
      env.parse arg = some (name0, directory) →
      py_replace_char '-' '_' name0 ≠ "" →
      env.imp (py_replace_char '-' '_' name0) = ImportResult.success →
      ∃ p s, (controller_command env arg nt).result =
        Except.error (PyExc.badCommand
          (p ++ routing_snippet (py_replace_char '-' '_' name0) ++ s))) := by
  constructor
  · intro env arg nt e h
    unfold controller_command
    rw [h]
  · intro env arg nt name0 directory hp hne hs
    have hrun : (controller_run env arg nt).result =
        Except.error (PyExc.badCommand (collision_msg (py_replace_char '-' '_' name0))) := by
      unfold controller_run
      rw [hp]
      simp [validate_name, hne, hs]
    have h2 : (controller_command env arg nt).result =
        Except.error (PyExc.badCommand ("An unknown error ocurred, " ++
          pyexc_str (PyExc.badCommand (collision_msg (py_replace_char '-' '_' name0))))) := by
      unfold controller_command
      rw [hrun]
    refine ⟨"An unknown error ocurred, " ++
      ("\n\nA module named '" ++ py_replace_char '-' '_' name0 ++
        "' is already present in your PYTHON_PATH.\n Choosing a conflicting name will likely cause import problems in\n your controller at some point. It's suggested that you choose an alternate\nname, and if you'd like that name to be accessible as '" ++
        py_replace_char '-' '_' name0 ++
        "', add a route\nto your projects config/routing.py file similar to:\n  "),
      "", ?_⟩
    rw [h2]
    simp [pyexc_str, collision_msg, String.append_assoc]

/-- An environment in which the scaffolding resolver raises (no project
metadata found). -/
def noProjectEnv : CtrlEnv :=
  ⟨fun _ => none, fun _ => ImportResult.importError, fun s => s, fun _ => none⟩

/-- Witness for C4: the resolver failure is rewrapped into the generic
message with the original text appended. -/
theorem controller_error_rewrap_witness :
    (controller_command noProjectEnv ("x") false).result =
      Except.error (PyExc.badCommand
        ("An unknown error ocurred, No egg_info directory was found")) :=
  controller_error_rewrap.1 noProjectEnv ("x") false
    (PyExc.badCommand ("No egg_info directory was found")) rfl

/-- Values bound in the shell namespace `locs`: the `__name__` string,
project modules looked up in `sys.modules` (by their dotted names), the
routes mapper from `make_map()`, the WSGI app loaded from the config, the
`paste.fixture` test app wrapping it, and the probed globals object. -/
inductive ShellVal (α : Type) where
  | strVal (s : String)
  | moduleVal (m : String)
  | mapperVal
  | wsgiappVal (conf : String)
  | appVal
  | gVal (g : α)

/-- Environment of `ShellCommand.command`, with `α` the type of the
request-scoped globals object. `args` are the positional arguments;
`dev_ini_exists` is `os.path.isfile('development.ini')`; `here_dir` is
`os.getcwd()`; `usage` is `self.parser.get_usage()`; `probe` is the outcome
of `test_app.get('/').g` (`Except.error` when that expression raises);
`truthy` is Python truthiness of the globals object. -/
structure ShellEnv (α : Type) where
  args : List String
  dev_ini_exists : Bool
  here_dir : String
  usage : String
  probe : Except Unit α
  truthy : α → Bool

/-- The external calls the shell command performs before handing the
namespace to the console, in program order. -/
inductive ShellEvent where
  | appConfigLoaded (conf : String)
  | configPushed
  | pathInserted (dir : String)
  | wsgiappLoaded (conf : String)
  | importedModule (m : String)
deriving DecidableEq

/-- `pkg_name = here_dir.split(os.path.sep)[-1].lower()`
(`commands.py` line 152). -/
def pkg_name (here_dir : String) : String :=
  String.mk (((split_chars '/' here_dir.data).getLastD []).map Char.toLower)

/-- Modelled from the spec: `pylons.g` (defined in `pylons/__init__.py`,
which is not under `src/`) is the process-wide stack of globals objects,
and `push_object` pushes onto it. -/
def push_object (g : α) (stack : List α) : List α := g :: stack

/-- The external calls of `ShellCommand.command` in program order
(`commands.py` lines 150-172): `appconfig` on the `config:` locator,
`push_thread_config`, `sys.path.insert(0, here_dir)`, `loadapp`, then the
three `__import__`s of the project's routing, models and helpers modules
(dotted names built from `pkg_name`). -/
def shell_events (env : ShellEnv α) (config_file : String) : List ShellEvent :=
  [ShellEvent.appConfigLoaded ("config:" ++ config_file),
    ShellEvent.configPushed,
    ShellEvent.pathInserted env.here_dir,
    ShellEvent.wsgiappLoaded ("config:" ++ config_file),
    ShellEvent.importedModule (pkg_name env.here_dir ++ ".config.routing"),
    ShellEvent.importedModule (pkg_name env.here_dir ++ ".models"),
    ShellEvent.importedModule (pkg_name env.here_dir ++ ".lib.helpers")]

/-- The namespace `locs` before the optional `g` binding (`commands.py`
lines 145, 184-192): `__name__` plus the five objects added by
`locs.update`. -/
def shell_locs_base (env : ShellEnv α) (config_file : String) :
    List (String × ShellVal α) :=
  [(("__name__"), ShellVal.strVal ("pylons-admin")),
    (("model"), ShellVal.moduleVal (pkg_name env.here_dir ++ ".models")),
    (("mapper"), ShellVal.mapperVal),
    (("wsgiapp"), ShellVal.wsgiappVal ("config:" ++ config_file)),
    (("app"), ShellVal.appVal),
    (("h"), ShellVal.moduleVal (pkg_name env.here_dir ++ ".lib.helpers"))]

/-- The body of `ShellCommand.command` after the config file is resolved
(`commands.py` lines 150-196): perform the external calls, probe
`test_app.get('/').g` with any exception swallowed (`global_obj` stays
`None`), then, when the probed object is truthy, add the `g` binding and
push the object onto `pylons.g`. Returns the event trace, the `pylons.g`
stack after the call, and the namespace handed to the console. -/
def shell_run (env : ShellEnv α) (g_stack : List α) (config_file : String) :
    List ShellEvent × List α × Except PyExc (List (String × ShellVal α)) :=
  match env.probe with
  | Except.ok g =>
    if env.truthy g then
      (shell_events env config_file, push_object g g_stack,
        Except.ok (shell_locs_base env config_file ++ [(("g"), ShellVal.gVal g)]))
    else (shell_events env config_file, g_stack,
      Except.ok (shell_locs_base env config_file))
  | Except.error _ =>
    (shell_events env config_file, g_stack,
      Except.ok (shell_locs_base env config_file))

/-- `ShellCommand.command` (`commands.py` lines 136-202 up to the console
handoff): with no positional argument the config file defaults to
`development.ini` and a missing file is a `BadCommand`; otherwise the
argument is the config file. -/
def shell_command (env : ShellEnv α) (g_stack : List α) :
    List ShellEvent × List α × Except PyExc (List (String × ShellVal α)) :=
  match env.args with
  | [] =>
    if env.dev_ini_exists then shell_run env g_stack ("development.ini")
    else
      ([], g_stack, Except.error (PyExc.badCommand (env.usage ++
        "Error: CONFIG_FILE not found at: ./development.ini\nPlease specify a CONFIG_FILE")))
  | a :: _ => shell_run env g_stack a

/-- Claim C6: with zero arguments and no `development.ini` in the current
directory, the shell command fails with a usage error, with an empty event
trace — so before loading any configuration or importing any project
module — and without touching the `pylons.g` stack. -/
theorem shell_missing_config_usage_error (α : Type) (env : ShellEnv α)
    (g_stack : List α) (h0 : env.args = []) (h1 : env.dev_ini_exists = false) :
    shell_command env g_stack =
      ([], g_stack, Except.error (PyExc.badCommand (env.usage ++
        "Error: CONFIG_FILE not found at: ./development.ini\nPlease specify a CONFIG_FILE"))) := by
  unfold shell_command
  rw [h0, h1]
  simp

/-- A concrete shell environment with no argument and no default config
file. -/
def noIniEnv : ShellEnv Unit :=
  ⟨[], false, "/home/user/proj", "Usage: paster shell [CONFIG_FILE]\n",
    Except.error (), fun _ => false⟩

/-- Witness for C6 at the concrete environment. -/
theorem shell_missing_config_usage_error_witness :
    shell_command noIniEnv ([] : List Unit) =
      ([], [], Except.error (PyExc.badCommand
        ("Usage: paster shell [CONFIG_FILE]\nError: CONFIG_FILE not found at: ./development.ini\nPlease specify a CONFIG_FILE"))) :=
  shell_missing_config_usage_error Unit noIniEnv ([] : List Unit) rfl rfl

/-- Helper: the namespace produced by `shell_run`. -/
theorem shell_run_namespace (α : Type) (env : ShellEnv α) (g_stack : List α)
    (config_file : String) :
    ∃ locs, (shell_run env g_stack config_file).2.2 = Except.ok locs
      ∧ ("model") ∈ locs.map Prod.fst ∧ ("mapper") ∈ locs.map Prod.fst
      ∧ ("h") ∈ locs.map Prod.fst ∧ ("wsgiapp") ∈ locs.map Prod.fst
      ∧ ("app") ∈ locs.map Prod.fst
      ∧ (("g") ∈ locs.map Prod.fst ↔
          ∃ g, env.probe = Except.ok g ∧ env.truthy g = true)
      ∧ (env.probe = Except.error () → locs.map Prod.fst =
          [("__name__"), ("model"), ("mapper"), ("wsgiapp"), ("app"), ("h")]) := by
  unfold shell_run
  cases hp : env.probe with
  | error u => exact ⟨_, rfl, by simp [shell_locs_base, hp]⟩
  | ok g =>
    by_cases ht : env.truthy g = true
    · exact ⟨shell_locs_base env config_file ++ [(("g"), ShellVal.gVal g)],
        by simp [ht], by simp [shell_locs_base, hp, ht]⟩
    · exact ⟨shell_locs_base env config_file,
        by simp [ht], by simp [shell_locs_base, hp, ht]⟩

/-- Claim C3: every shell launch that reaches namespace assembly hands the
console a namespace containing `model`, `mapper`, `h`, `wsgiapp` and `app`;
it contains `g` exactly when the root-path probe succeeds and yields a
truthy globals object, and a probe exception is swallowed, leaving exactly
the base namespace. -/
theorem shell_namespace_keys (α : Type) (env : ShellEnv α) (g_stack : List α)
    (hrun : env.args ≠ [] ∨ env.dev_ini_exists = true) :
    ∃ locs, (shell_command env g_stack).2.2 = Except.ok locs
      ∧ ("model") ∈ locs.map Prod.fst ∧ ("mapper") ∈ locs.map Prod.fst
      ∧ ("h") ∈ locs.map Prod.fst ∧ ("wsgiapp") ∈ locs.map Prod.fst
      ∧ ("app") ∈ locs.map Prod.fst
      ∧ (("g") ∈ locs.map Prod.fst ↔
          ∃ g, env.probe = Except.ok g ∧ env.truthy g = true)
      ∧ (env.probe = Except.error () → locs.map Prod.fst =
          [("__name__"), ("model"), ("mapper"), ("wsgiapp"), ("app"), ("h")]) := by
  unfold shell_command
  cases ha : env.args with
  | nil =>
    cases hd : env.dev_ini_exists with
    | false => simp [ha, hd] at hrun
    | true =>
      simp only [if_pos]
      exact shell_run_namespace α env g_stack ("development.ini")
  | cons a rest => exact shell_run_namespace α env g_stack a

/-- A concrete shell environment whose probe succeeds with a truthy globals
object. -/
def gProbeEnv : ShellEnv Nat :=
  ⟨[("development.ini")], true, "/srv/Proj", "usage: shell\n",
    Except.ok 5, fun _ => true⟩

/-- Witness for C3 at the concrete environment. -/
theorem shell_namespace_keys_witness :
    ∃ locs, (shell_command gProbeEnv ([] : List Nat)).2.2 = Except.ok locs
      ∧ ("model") ∈ locs.map Prod.fst ∧ ("mapper") ∈ locs.map Prod.fst
      ∧ ("h") ∈ locs.map Prod.fst ∧ ("wsgiapp") ∈ locs.map Prod.fst
      ∧ ("app") ∈ locs.map Prod.fst
      ∧ (("g") ∈ locs.map Prod.fst ↔
          ∃ g, gProbeEnv.probe = Except.ok g ∧ gProbeEnv.truthy g = true)
      ∧ (gProbeEnv.probe = Except.error () → locs.map Prod.fst =
          [("__name__"), ("model"), ("mapper"), ("wsgiapp"), ("app"), ("h")]) :=
  shell_namespace_keys Nat gProbeEnv ([] : List Nat) (Or.inl (by decide))

/-- Claim C10: when the root-path probe yields a truthy globals object the
shell pushes that same object onto the process-wide `pylons.g` stack and
also binds it as `g` in the namespace; when the probe fails or yields a
falsy object, the `pylons.g` stack is left unchanged. -/
theorem shell_g_stack_push (α : Type) (env : ShellEnv α) (st : List α)
    (hrun : env.args ≠ [] ∨ env.dev_ini_exists = true) :
    (∀ g, env.probe = Except.ok g → env.truthy g = true →
      (shell_command env st).2.1 = push_object g st
      ∧ ∃ locs, (shell_command env st).2.2 = Except.ok locs
          ∧ (("g"), ShellVal.gVal g) ∈ locs)
    ∧ (∀ g, env.probe = Except.ok g → env.truthy g = false →
      (shell_command env st).2.1 = st)
    ∧ (env.probe = Except.error () → (shell_command env st).2.1 = st) := by
  have hcase : ∀ _cf : String,
      (∀ g, env.probe = Except.ok g → env.truthy g = true →
        (shell_run env st _cf).2.1 = push_object g st
        ∧ ∃ locs, (shell_run env st _cf).2.2 = Except.ok locs
            ∧ (("g"), ShellVal.gVal g) ∈ locs)
      ∧ (∀ g, env.probe = Except.ok g → env.truthy g = false →
        (shell_run env st _cf).2.1 = st)
      ∧ (env.probe = Except.error () → (shell_run env st _cf).2.1 = st) := by
    intro _cf
    unfold shell_run
    refine ⟨?_, ?_, ?_⟩
    · intro g hg ht
      simp only [hg]
      rw [if_pos ht]
      exact ⟨rfl, _, rfl, by simp⟩
    · intro g hg ht
      simp [hg, ht]
    · intro hg
      simp [hg]
  unfold shell_command
  cases ha : env.args with
  | nil =>
    cases hd : env.dev_ini_exists with
    | false => simp [ha, hd] at hrun
    | true =>
      simp only [if_pos]
      exact hcase ("development.ini")
  | cons a rest => exact hcase a

/-- Witness for C10 at the concrete truthy-probe environment. -/
theorem shell_g_stack_push_witness :
    (shell_command gProbeEnv ([] : List Nat)).2.1 = push_object 5 [] :=
  ((shell_g_stack_push Nat gProbeEnv ([] : List Nat)
    (Or.inl (by decide))).1 5 rfl rfl).1

/-- Result of one `raw_input` call: a line of input, an `EOFError` on end of
input, or any other exception (carrying its message). -/
inductive RawInputRes where
  | val (s : String)
  | eofError
  | exc (e : String)
deriving DecidableEq

/-- `CustomIPShell.raw_input` (`commands.py` lines 216-222) as a function of
the parent `IPython.iplib.InteractiveShell.raw_input` outcome: the parent
call is wrapped in `try`, and a raised `EOFError` is re-raised as
`EOFError`; every other outcome passes through. -/
def custom_ipshell_raw_input (parent : RawInputRes) : RawInputRes :=
  match parent with
  | RawInputRes.eofError => RawInputRes.eofError
  | r => r

/-- `CustomShell.raw_input` (`commands.py` lines 234-240): the same wrapping
over `code.InteractiveConsole.raw_input`. -/
def custom_shell_raw_input (parent : RawInputRes) : RawInputRes :=
  match parent with
  | RawInputRes.eofError => RawInputRes.eofError
  | r => r

/-- Claim C9: both overriding `raw_input` wrappers are behaviorally equal to
the parent implementation — on normal input they return the same value, and
on end-of-input they re-raise `EOFError` as `EOFError`. -/
theorem raw_input_passthrough (parent : RawInputRes) :
    custom_ipshell_raw_input parent = parent
    ∧ custom_shell_raw_input parent = parent := by
  cases parent <;> exact ⟨rfl, rfl⟩

end Pylons
